import Mathlib

/-!
Shallow embedding of `src/main.py` (ASHI STUDIO invoice generator).
Pure computations (numeric parsing, ordinals, payment derivation, totals)
are translated to Lean functions; the Streamlit/FPDF side effects are
modelled as explicit data: the produced document is a list of rendered
text elements, diagnostics are explicit warning/error string lists, and
Python exceptions become `Except`.
Python's `round` (round-half-to-even on the exact value) is modelled on ℚ.
-/

namespace InvoiceGen

/-- The code points for which Python `str.isspace()` is true (the set
stripped by `str.strip()`), from the CPython 3.11 Unicode database. -/
def pySpaceCodes : List Nat :=
  [0x9, 0xa, 0xb, 0xc, 0xd, 0x1c, 0x1d, 0x1e, 0x1f, 0x20, 0x85, 0xa0,
   0x1680, 0x2000, 0x2001, 0x2002, 0x2003, 0x2004, 0x2005, 0x2006, 0x2007,
   0x2008, 0x2009, 0x200a, 0x2028, 0x2029, 0x202f, 0x205f, 0x3000]

/-- Python `str.isspace()` on one character. -/
def pyIsSpace (c : Char) : Bool := pySpaceCodes.contains c.toNat

/-- Python `str.strip()`: drop leading and trailing whitespace characters. -/
def pyStrip (l : List Char) : List Char :=
  ((l.dropWhile pyIsSpace).reverse.dropWhile pyIsSpace).reverse

/-- The first code point of every decade of Unicode decimal digits
(category Nd, `str.isdecimal()`), from the CPython 3.11 Unicode database;
each decade holds the digits 0–9 in order, so the decimal value of a
digit is its offset from its decade start. -/
def decimalDecadeStarts : List Nat :=
  [0x30, 0x660, 0x6f0, 0x7c0, 0x966, 0x9e6, 0xa66, 0xae6, 0xb66, 0xbe6,
   0xc66, 0xce6, 0xd66, 0xde6, 0xe50, 0xed0, 0xf20, 0x1040, 0x1090, 0x17e0,
   0x1810, 0x1946, 0x19d0, 0x1a80, 0x1a90, 0x1b50, 0x1bb0, 0x1c40, 0x1c50,
   0xa620, 0xa8d0, 0xa900, 0xa9d0, 0xa9f0, 0xaa50, 0xabf0, 0xff10, 0x104a0,
   0x10d30, 0x11066, 0x110f0, 0x11136, 0x111d0, 0x112f0, 0x11450, 0x114d0,
   0x11650, 0x116c0, 0x11730, 0x118e0, 0x11950, 0x11c50, 0x11d50, 0x11da0,
   0x16a60, 0x16ac0, 0x16b50, 0x1d7ce, 0x1d7d8, 0x1d7e2, 0x1d7ec, 0x1d7f6,
   0x1e140, 0x1e2f0, 0x1e950, 0x1fbf0]

/-- The decimal value of a character when it is a Unicode decimal digit
(what Python `int` accepts), `none` otherwise. -/
def pyDecimalVal (c : Char) : Option Nat :=
  (decimalDecadeStarts.find? (fun s => Nat.ble s c.toNat && Nat.ble c.toNat (s + 9))).map
    (fun s => c.toNat - s)

/-- The code points with Numeric_Type=Digit that are not decimal digits
(superscripts, subscripts, circled digits, …), from the CPython 3.11
Unicode database: `str.isdigit()` is true of them but `int` rejects
them. -/
def digitOnlyCodes : List Nat :=
  [0xb2, 0xb3, 0xb9, 0x1369, 0x136a, 0x136b, 0x136c, 0x136d, 0x136e,
   0x136f, 0x1370, 0x1371, 0x19da, 0x2070, 0x2074, 0x2075, 0x2076, 0x2077,
   0x2078, 0x2079, 0x2080, 0x2081, 0x2082, 0x2083, 0x2084, 0x2085, 0x2086,
   0x2087, 0x2088, 0x2089, 0x2460, 0x2461, 0x2462, 0x2463, 0x2464, 0x2465,
   0x2466, 0x2467, 0x2468, 0x2474, 0x2475, 0x2476, 0x2477, 0x2478, 0x2479,
   0x247a, 0x247b, 0x247c, 0x2488, 0x2489, 0x248a, 0x248b, 0x248c, 0x248d,
   0x248e, 0x248f, 0x2490, 0x24ea, 0x24f5, 0x24f6, 0x24f7, 0x24f8, 0x24f9,
   0x24fa, 0x24fb, 0x24fc, 0x24fd, 0x24ff, 0x2776, 0x2777, 0x2778, 0x2779,
   0x277a, 0x277b, 0x277c, 0x277d, 0x277e, 0x2780, 0x2781, 0x2782, 0x2783,
   0x2784, 0x2785, 0x2786, 0x2787, 0x2788, 0x278a, 0x278b, 0x278c, 0x278d,
   0x278e, 0x278f, 0x2790, 0x2791, 0x2792, 0x10a40, 0x10a41, 0x10a42,
   0x10a43, 0x10e60, 0x10e61, 0x10e62, 0x10e63, 0x10e64, 0x10e65, 0x10e66,
   0x10e67, 0x10e68, 0x11052, 0x11053, 0x11054, 0x11055, 0x11056, 0x11057,
   0x11058, 0x11059, 0x1105a, 0x1f100, 0x1f101, 0x1f102, 0x1f103, 0x1f104,
   0x1f105, 0x1f106, 0x1f107, 0x1f108, 0x1f109, 0x1f10a]

/-- Python `str.isdigit()` on one character: Numeric_Type=Decimal or
Numeric_Type=Digit.  Strictly wider than what `int` accepts. -/
def pyIsDigitChar (c : Char) : Bool :=
  (pyDecimalVal c).isSome || digitOnlyCodes.contains c.toNat

/-- Python `int(text)` on the shapes reachable behind the `isdigit`
guard (no sign, underscore or surrounding whitespace can pass it):
the base-10 value when every character is a decimal digit, a raised
`ValueError` otherwise — in particular on Numeric_Type=Digit characters
such as SUPERSCRIPT TWO, which pass the guard. -/
def pyInt (l : List Char) : Except String Nat :=
  if l ≠ [] ∧ l.all (fun c => (pyDecimalVal c).isSome) then
    .ok (l.foldl (fun a c => 10 * a + (pyDecimalVal c).getD 0) 0)
  else .error "ValueError: invalid literal for int() with base 10"

/-- `src/main.py` lines 18–21:
`text = text.replace(",", "").strip(); return int(text) if text.isdigit() else 0`.
An uncaught exception from `int` is an `Except.error`. -/
def parse_int_with_commas (s : String) : Except String Nat :=
  let text := pyStrip (s.data.filter (fun c => c ≠ ','))
  if text ≠ [] ∧ text.all pyIsDigitChar then pyInt text else .ok 0

/-- `src/main.py` lines 23–27: the ten ordinal words. -/
def ordinals : List String :=
  ["first", "second", "third", "fourth", "fifth",
   "sixth", "seventh", "eighth", "ninth", "tenth"]

/-- `src/main.py` lines 23–27:
`return ordinals[n] if n < len(ordinals) else f"{n+1}th"` (n is a 0-based
index; the source only ever calls it with `enumerate` indices, i.e. naturals). -/
def ordinal (n : Nat) : String :=
  if h : n < ordinals.length then ordinals[n] else toString (n + 1) ++ "th"

/-- Python `round` on an exactly-represented value: round to the nearest
integer, ties to the even integer (CPython's rounding rule). -/
def pyRound (q : ℚ) : ℤ :=
  let f := ⌊q⌋
  if q - f < 1/2 then f
  else if q - f > 1/2 then f + 1
  else if f % 2 = 0 then f else f + 1

/-- `src/main.py` line 13. -/
def CURRENCY_SYMBOL : String := "€"

/-- `src/main.py` line 12. -/
def LOGO_PATH : String := "ashi_logo.jpg"

/-- Digit grouping of Python's format spec `f"{n:,d}"`, on the reversed
digit list: after every three digits (from the right) insert a comma.
The first argument is fuel (the list length suffices), keeping the
recursion structural. -/
def commaGroupRev : Nat → List Char → List Char
  | fuel + 1, a :: b :: c :: d :: rest => a :: b :: c :: ',' :: commaGroupRev fuel (d :: rest)
  | _, l => l

/-- Python `f"{n:,d}"`: decimal digits grouped in threes by commas. -/
def commaFmt (n : Nat) : String :=
  let ds := (toString n).data
  ⟨(commaGroupRev ds.length ds.reverse).reverse⟩

/-- A `LineItem` of the invoice form (`src/main.py` line 343). -/
structure Item where
  description : String
  price : Nat
  paid : Nat
deriving DecidableEq

/-- A `PaymentPlanEntry` (`src/main.py` lines 389–395).  Dates are already
formatted to strings by the form layer (`strftime("%d-%m-%Y")` or `""`). -/
structure Payment where
  name : String
  date : String
  percentage : Nat
  amount : Nat
  description : String
deriving DecidableEq

/-- The `invoice_data` dict handed to `create_invoice_pdf`
(`src/main.py` lines 417–426). -/
structure InvoiceData where
  invoice_number : String
  invoice_date : String
  client_name : String
  country : String
  phone : String
  items : List Item
  vat : Nat
  payments : List Payment
deriving DecidableEq

/-- `src/main.py` lines 138–145: the items-table loop accumulates
`sum_price += price`. -/
def sum_price (items : List Item) : Nat :=
  items.foldl (fun s it => s + it.price) 0

/-- `src/main.py` lines 138–145: the items-table loop accumulates
`sum_paid += paid`. -/
def sum_paid (items : List Item) : Nat :=
  items.foldl (fun s it => s + it.paid) 0

/-- `src/main.py` line 158: `final_total = sum_paid + vat`. -/
def final_total (items : List Item) (vat : Nat) : Nat :=
  sum_paid items + vat

/-- `src/main.py` lines 185–191: the per-entry payment derivation.  The
division `amt / sum_price_local` raises `ZeroDivisionError` when the base
price is `0`; a raised exception is an `Except.error`. -/
def derivePay (basePrice : Nat) (p : Payment) : Except String Payment :=
  if p.percentage = 0 ∧ p.amount ≠ 0 then
    if basePrice = 0 then .error "division by zero"
    else .ok { p with percentage := (pyRound ((p.amount : ℚ) / (basePrice : ℚ) * 100)).toNat }
  else if p.amount = 0 ∧ p.percentage ≠ 0 then
    .ok { p with amount := (pyRound ((p.percentage : ℚ) / 100 * (basePrice : ℚ))).toNat }
  else .ok p

/-- One rendered row of the payment-schedule table (`src/main.py`
lines 183–196): the name cell is `pay["name"] or "N/A"`, the date cell is
`pay["date"] or ""` (identity on strings), and the percentage/amount cells
carry the locally derived values `perc`/`amt`. -/
structure PayRowR where
  payment : String
  date : String
  percentage : Nat
  amount : Nat
deriving DecidableEq

/-- Build the rendered row from an entry and its derived values. -/
def payRow (p : Payment) (perc amt : Nat) : PayRowR :=
  { payment := if p.name = "" then "N/A" else p.name
    date := p.date
    percentage := perc
    amount := amt }

/-- `src/main.py` lines 182–199: the payment-schedule loop.  Each entry is
derived, rendered as a table row, and the derived values are written back
into the entry (`invoice_data["payments"][idx][...] = ...`); an exception
aborts the loop. -/
def payLoop (basePrice : Nat) : List Payment → Except String (List PayRowR × List Payment)
  | [] => .ok ([], [])
  | p :: ps =>
    match derivePay basePrice p with
    | .error e => .error e
    | .ok p' =>
      match payLoop basePrice ps with
      | .error e => .error e
      | .ok (rows, ps') => .ok (payRow p p'.percentage p'.amount :: rows, p' :: ps')

/-- The cells of the payment table row as printed (`f"{perc:,d}%"`,
`f"{amt:,d} €"`). -/
def renderPayRow (r : PayRowR) : List String :=
  [r.payment, r.date, commaFmt r.percentage ++ "%", commaFmt r.amount ++ " " ++ CURRENCY_SYMBOL]

/-- `src/main.py` lines 100–125: header texts (company block, invoice
number/date block, client information block). -/
def headerElems (d : InvoiceData) : List String :=
  ["ASHI STUDIO SAS", "9 AVENUE HOCHE", "75008 PARIS, FRANCE",
   "Invoice Number: " ++ d.invoice_number ++ "\n\n" ++ "Date: " ++ d.invoice_date,
   "Client Information",
   "Name: " ++ d.client_name,
   "Country: " ++ d.country,
   "Phone: " ++ d.phone]

/-- `src/main.py` lines 147–149: one rendered items-table row. -/
def itemRow (it : Item) : List String :=
  [it.description,
   commaFmt it.price ++ " " ++ CURRENCY_SYMBOL,
   commaFmt it.paid ++ " " ++ CURRENCY_SYMBOL]

/-- `src/main.py` lines 132–171: the items table with header, rows,
summation row, VAT row and Final Total row. -/
def itemsTable (items : List Item) (vat : Nat) : List String :=
  ["DESCRIPTION", "TOTAL PRICE", "TO BE PAID"]
  ++ (items.map itemRow).flatten
  ++ [commaFmt (sum_price items) ++ " " ++ CURRENCY_SYMBOL,
      commaFmt (sum_paid items) ++ " " ++ CURRENCY_SYMBOL]
  ++ ["VAT", commaFmt vat]
  ++ ["Total", commaFmt (final_total items vat) ++ " " ++ CURRENCY_SYMBOL]

/-- `src/main.py` lines 225–244: the static bank-details pairs, flattened
column by column. -/
def bankDetails : List String :=
  ["Bank Transfer Details:",
   "BENEFICIARY:", "ASHI STUDIO SAS\n9 AVENUE HOCHE\n75008 PARIS, FRANCE",
   "REGISTRATION number:", "922 266 788 00012",
   "VAT:", "FR21922266788",
   "BANK NAME:", "BNP PARIBAS",
   "AGENCY ADDRESS:", "Agency Paris Turenne",
   "AGENCY CODE:", "00823",
   "ACCOUNT CURRENCY:", "EUR (Euro)",
   "IBAN:", "FR76 3000 4008 2300 0108 9656 803",
   "RIB:", "03",
   "SWIFT:", "BNPAFRPPXXX",
   "ACCOUNT N°:", "00010896568",
   "BANK CODE:", "30004"]

/-- `src/main.py` lines 270–278: the per-payment terms sentence, read from
the (written-back) entry. -/
def termsLine (i : Nat) (p : Payment) : String :=
  "• A " ++ ordinal i ++ " payment of " ++ toString p.percentage ++ "%"
  ++ " of the total price is required"
  ++ (if p.name ≠ "" then " as " ++ p.name else "")
  ++ (if p.description ≠ "" then " (" ++ p.description ++ ")" else "")

/-- `src/main.py` lines 269–279: `for i, pay in enumerate(...)`. -/
def termsLines : Nat → List Payment → List String
  | _, [] => []
  | i, p :: ps => termsLine i p :: termsLines (i + 1) ps

/-- `src/main.py` lines 281–288: the six fixed boilerplate clauses. -/
def standard_terms : List String :=
  ["• As per the company policy, once a dress is purchased, it is not subject to return or refund",
   "• Once the purchase details and samples are approved by the client, the dress is not subject to any changes",
   "• The delivery date is scheduled as per the agreement with the sales team upon order confirmation; in case of any date change or event cancellation, Ashi Studio will be working according to the initial date provided",
   "• Any addition to the dress, requested by the client, will be charged separately",
   "• After doing the final fitting and dress adjustments, once the dress is received, any changes requested are not covered by Ashi Studio and are subject to additional payments",
   "• Fittings and delivery will be in the client country of origin or in AshI STUDIO showroom in Paris; any changes in the destination will be at the cost of the client"]

/-- A rendered document element: a text cell or a placed image. -/
inductive Elem where
  | text (s : String)
  | image (path : String)
deriving DecidableEq

/-- The ambient process state relevant to generation: whether the logo
file exists (`os.path.exists(LOGO_PATH)`, line 94) and whether the font
files load (`pdf.add_font`, lines 62–70). -/
structure Ctx where
  logoExists : Bool
  fontOk : Bool
deriving DecidableEq

/-- The observable outcome of one generation call: the rendered document
(or `none`), plus the `st.warning`/`st.error` diagnostics emitted. -/
structure GenOutput where
  doc : Option (List Elem)
  warnings : List String
  errors : List String
deriving DecidableEq

/-- The text body of the document after the optional logo image, in
render order (`src/main.py` lines 98–303). -/
def bodyStrs (d : InvoiceData) (rows : List PayRowR) (pays : List Payment) : List String :=
  headerElems d
  ++ itemsTable d.items d.vat
  ++ ["PAYMENT", "DATE", "PERCENTAGE", "AMOUNT"]
  ++ (rows.map renderPayRow).flatten
  ++ bankDetails
  ++ ["Terms & Conditions"]
  ++ termsLines 0 pays
  ++ standard_terms
  ++ ["THANK YOU FOR CHOOSING ASHI STUDIO", "WWW.ASHISTUDIO.COM"]

/-- `src/main.py` lines 51–70 and 75–311: `init_pdf` returns `None` on a
font failure (caught `pdf.add_font` exception), after which
`create_invoice_pdf` returns `None`; otherwise the sections are composed
inside a `try` whose `except` reports `Failed to generate PDF: {e}` and
returns `None`.  The logo is placed only when the file exists; otherwise a
warning is emitted and composition continues. -/
def create_invoice_pdf (ctx : Ctx) (d : InvoiceData) : GenOutput :=
  if ctx.fontOk = false then
    { doc := none, warnings := [], errors := ["PDF initialization failed"] }
  else
    let logoElems : List Elem := if ctx.logoExists then [.image LOGO_PATH] else []
    let warns : List String :=
      if ctx.logoExists then [] else ["Logo file not found: " ++ LOGO_PATH]
    match payLoop (sum_price d.items) d.payments with
    | .error e =>
      { doc := none, warnings := warns, errors := ["Failed to generate PDF: " ++ e] }
    | .ok (rows, pays') =>
      { doc := some (logoElems ++ (bodyStrs d rows pays').map Elem.text)
        warnings := warns
        errors := [] }

/-- `src/main.py` line 401: `total_percent = sum(p["percentage"] for p in payments)`. -/
def total_percent (payments : List Payment) : Nat :=
  payments.foldl (fun s p => s + p.percentage) 0

/-- `src/main.py` line 402: `total_amount = sum(p["amount"] for p in payments)`. -/
def total_amount (payments : List Payment) : Nat :=
  payments.foldl (fun s p => s + p.amount) 0

/-- `src/main.py` lines 403–411: the validation errors collected by the
Generate Invoice button handler (the per-entry check appends one message
and breaks, so it contributes at most one list element). -/
def validation_errors (payments : List Payment) (sumPriceV : Nat) : List String :=
  (if ¬(total_percent payments = 100 ∨ total_amount payments = sumPriceV) then
    ["Either sum of payment percentages must be 100%, or sum of payment amounts must equal total price ("
      ++ commaFmt sumPriceV ++ " " ++ CURRENCY_SYMBOL ++ ")."]
   else [])
  ++ (if payments.any (fun p => p.percentage == 0 && p.amount == 0) then
    ["Each payment must have a non-zero percentage or a non-zero amount."]
   else [])

/-- Outcome of a click on the Generate Invoice button. -/
inductive ClickResult where
  | rejected (errs : List String)
  | attempted (out : GenOutput)
deriving DecidableEq

/-- `src/main.py` lines 400–431: validate; on any validation error report
and do not generate, otherwise call `create_invoice_pdf`. -/
def generateClick (ctx : Ctx) (d : InvoiceData) : ClickResult :=
  let errs := validation_errors d.payments (sum_price d.items)
  if errs = [] then .attempted (create_invoice_pdf ctx d) else .rejected errs

/-- The two line items of the spec's items-table example. -/
def exItems : List Item :=
  [⟨"Item 1", 1000, 500⟩, ⟨"Item 2", 2000, 1000⟩]

/-- A fully resolved example invoice: one payment whose amount equals the
total price, so validation passes and derivation touches nothing. -/
def exData : InvoiceData :=
  { invoice_number := "369/2025"
    invoice_date := "12/10/2025"
    client_name := "Client"
    country := "Kuwait"
    phone := "+965 1234 5678"
    items := exItems
    vat := 150
    payments := [⟨"full payment", "01-01-2025", 100, 3000, ""⟩] }

/-- Example rejected by validation: percentages sum to 90 and amounts sum
to 0 while the total price is 1000. -/
def exData90 : InvoiceData :=
  { invoice_number := "1"
    invoice_date := "12/10/2025"
    client_name := "Client"
    country := "Kuwait"
    phone := "+965"
    items := [⟨"Item 1", 1000, 0⟩]
    vat := 0
    payments := [⟨"down payment", "", 50, 0, ""⟩, ⟨"fitting payment", "", 40, 0, ""⟩] }

/-- Example invoice whose item prices sum to zero while a payment has a
non-zero amount and zero percentage: derivation divides by zero. -/
def exDataZero : InvoiceData :=
  { invoice_number := "2"
    invoice_date := "12/10/2025"
    client_name := "Client"
    country := "Kuwait"
    phone := "+965"
    items := []
    vat := 0
    payments := [⟨"down payment", "", 0, 300, ""⟩] }

lemma foldl_add_map {α : Type} (f : α → Nat) :
    ∀ (l : List α) (a : Nat), l.foldl (fun s x => s + f x) a = a + (l.map f).sum := by
  intro l
  induction l with
  | nil => intro a; simp
  | cons x xs ih =>
    intro a
    simp only [List.foldl_cons, List.map_cons, List.sum_cons, ih (a + f x)]
    omega

end InvoiceGen


namespace InvoiceGen

/-- C3: for every list of line items and every VAT value, the items-table
sums are the sums of the item prices and paid values, the printed
Final Total equals `sum_paid + VAT` (and its cell appears in the rendered
items table); for the example items with vat = 150 the sums are 3000 and
1500 and the final total is 1650, which differs from `sum_price + VAT`. -/
theorem items_table_totals :
    (∀ (items : List Item) (vat : Nat),
      sum_price items = (items.map Item.price).sum ∧
      sum_paid items = (items.map Item.paid).sum ∧
      final_total items vat = sum_paid items + vat ∧
      (commaFmt (sum_paid items + vat) ++ " " ++ CURRENCY_SYMBOL) ∈ itemsTable items vat) ∧
    sum_price exItems = 3000 ∧ sum_paid exItems = 1500 ∧
    final_total exItems 150 = 1650 ∧ final_total exItems 150 ≠ sum_price exItems + 150 := by
  refine ⟨fun items vat => ⟨?_, ?_, rfl, ?_⟩, by decide, by decide, by decide, by decide⟩
  · simpa using foldl_add_map Item.price items 0
  · simpa using foldl_add_map Item.paid items 0
  · simp [itemsTable, final_total]

/-- C4: the numeric parser CAN fail with an error, contrary to the claim:
`str.isdigit` is true of SUPERSCRIPT TWO, so the guard at line 21 passes,
but `int` accepts only decimal digits and raises `ValueError` on "²"
(there is no surrounding try/except at the parse sites, lines 341–347 and
387–388).  The same evaluation shows the model is Python-faithful on the
neighbouring cases: the Arabic-Indic digit "٣" parses to 3 and a
non-digit string returns 0 without an error. -/
theorem parser_error_path :
    pyIsDigitChar '²' = true ∧
    parse_int_with_commas "²"
      = .error "ValueError: invalid literal for int() with base 10" ∧
    parse_int_with_commas "٣" = .ok 3 ∧
    parse_int_with_commas "abc" = .ok 0 :=
  ⟨rfl, rfl, rfl, rfl⟩

/-- C5: the parser's concrete behaviour: commas are stripped wherever they
occur and the remaining digit string is parsed, empty or non-digit input
yields 0. -/
theorem parser_examples :
    parse_int_with_commas "12,300" = .ok 12300 ∧
    parse_int_with_commas "" = .ok 0 ∧
    parse_int_with_commas "abc" = .ok 0 ∧
    parse_int_with_commas "1,2,3" = .ok 123 :=
  ⟨rfl, rfl, rfl, rfl⟩

/-- C6: the ordinal function returns the English ordinal word for indices
0–9 and the numeral `n+1` suffixed with "th" for every index `n ≥ 10`;
in particular `ordinal 10 = "11th"`. -/
theorem ordinal_spec :
    (ordinal 0 = "first" ∧ ordinal 1 = "second" ∧ ordinal 2 = "third" ∧
     ordinal 3 = "fourth" ∧ ordinal 4 = "fifth" ∧ ordinal 5 = "sixth" ∧
     ordinal 6 = "seventh" ∧ ordinal 7 = "eighth" ∧ ordinal 8 = "ninth" ∧
     ordinal 9 = "tenth") ∧
    (∀ n : Nat, 10 ≤ n → ordinal n = toString (n + 1) ++ "th") ∧
    ordinal 10 = "11th" := by
  refine ⟨by decide, fun n hn => ?_, by decide⟩
  have hlen : ordinals.length = 10 := rfl
  unfold ordinal
  rw [dif_neg (by rw [hlen]; omega)]

/-- C6 witness: the fallback branch applied at index 12. -/
theorem ordinal_spec_witness : ordinal 12 = toString (12 + 1) ++ "th" :=
  ordinal_spec.2.1 12 (by norm_num)

end InvoiceGen

namespace InvoiceGen

lemma payLoop_nil (bp : Nat) : payLoop bp [] = .ok ([], []) := rfl

lemma payLoop_cons (bp : Nat) (p : Payment) (ps : List Payment) :
    payLoop bp (p :: ps) =
      match derivePay bp p with
      | .error e => .error e
      | .ok p' =>
        match payLoop bp ps with
        | .error e => .error e
        | .ok (rows, ps') => .ok (payRow p p'.percentage p'.amount :: rows, p' :: ps') := rfl

lemma derivePay_resolved (bp : Nat) (p : Payment)
    (h1 : p.percentage ≠ 0) (h2 : p.amount ≠ 0) :
    derivePay bp p = .ok p := by
  unfold derivePay
  rw [if_neg (fun hc => h1 hc.1), if_neg (fun hc => h2 hc.1)]

lemma derivePay_error_inv (bp : Nat) (p : Payment) (e : String)
    (h : derivePay bp p = .error e) :
    e = "division by zero" ∧ bp = 0 ∧ p.percentage = 0 ∧ p.amount ≠ 0 := by
  unfold derivePay at h
  by_cases h1 : p.percentage = 0 ∧ p.amount ≠ 0
  · rw [if_pos h1] at h
    by_cases hbp : bp = 0
    · rw [if_pos hbp] at h
      injection h with h
      exact ⟨h.symm, hbp, h1⟩
    · rw [if_neg hbp] at h
      exact Except.noConfusion h
  · rw [if_neg h1] at h
    by_cases h2 : p.amount = 0 ∧ p.percentage ≠ 0
    · rw [if_pos h2] at h
      exact Except.noConfusion h
    · rw [if_neg h2] at h
      exact Except.noConfusion h

lemma derivePay_frame (bp : Nat) (p q : Payment) (h : derivePay bp p = .ok q) :
    q.name = p.name ∧ q.date = p.date ∧ q.description = p.description := by
  unfold derivePay at h
  by_cases h1 : p.percentage = 0 ∧ p.amount ≠ 0
  · rw [if_pos h1] at h
    by_cases hbp : bp = 0
    · rw [if_pos hbp] at h
      exact Except.noConfusion h
    · rw [if_neg hbp] at h
      injection h with h
      subst h
      exact ⟨rfl, rfl, rfl⟩
  · rw [if_neg h1] at h
    by_cases h2 : p.amount = 0 ∧ p.percentage ≠ 0
    · rw [if_pos h2] at h
      injection h with h
      subst h
      exact ⟨rfl, rfl, rfl⟩
    · rw [if_neg h2] at h
      injection h with h
      subst h
      exact ⟨rfl, rfl, rfl⟩

lemma derivePay_clauses (bp : Nat) (hbp : bp ≠ 0) (p q : Payment)
    (h : derivePay bp p = .ok q) :
    (p.percentage = 0 ∧ p.amount ≠ 0 →
      q = { p with percentage := (pyRound ((p.amount : ℚ) / (bp : ℚ) * 100)).toNat }) ∧
    (p.amount = 0 ∧ p.percentage ≠ 0 →
      q = { p with amount := (pyRound ((p.percentage : ℚ) / 100 * (bp : ℚ))).toNat }) ∧
    ((p.percentage = 0 ↔ p.amount = 0) → q = p) := by
  unfold derivePay at h
  by_cases h1 : p.percentage = 0 ∧ p.amount ≠ 0
  · rw [if_pos h1, if_neg hbp] at h
    injection h with h
    subst h
    exact ⟨fun _ => rfl,
           fun hc => absurd hc.1 h1.2,
           fun hiff => absurd (hiff.mp h1.1) h1.2⟩
  · rw [if_neg h1] at h
    by_cases h2 : p.amount = 0 ∧ p.percentage ≠ 0
    · rw [if_pos h2] at h
      injection h with h
      subst h
      exact ⟨fun hc => absurd h2.1 hc.2,
             fun _ => rfl,
             fun hiff => absurd (hiff.mpr h2.1) h2.2⟩
    · rw [if_neg h2] at h
      injection h with h
      subst h
      exact ⟨fun hc => absurd hc h1, fun hc => absurd hc h2, fun _ => rfl⟩

lemma payLoop_ok_forall₂ (bp : Nat) :
    ∀ (ps : List Payment) (rows : List PayRowR) (qs : List Payment),
      payLoop bp ps = .ok (rows, qs) →
      List.Forall₂ (fun p q => derivePay bp p = .ok q) ps qs := by
  intro ps
  induction ps with
  | nil =>
    intro rows qs h
    rw [payLoop_nil] at h
    injection h with h
    obtain ⟨hr, hq⟩ := (Prod.mk.injEq _ _ _ _).mp h
    subst hr
    subst hq
    exact List.Forall₂.nil
  | cons p ps ih =>
    intro rows qs h
    rw [payLoop_cons] at h
    cases hd : derivePay bp p with
    | error e => rw [hd] at h; exact Except.noConfusion h
    | ok p' =>
      rw [hd] at h
      cases hl : payLoop bp ps with
      | error e => rw [hl] at h; exact Except.noConfusion h
      | ok pr =>
        obtain ⟨rows', qs'⟩ := pr
        rw [hl] at h
        injection h with h
        obtain ⟨hr, hq⟩ := (Prod.mk.injEq _ _ _ _).mp h
        subst hr
        subst hq
        exact List.Forall₂.cons hd (ih rows' qs' hl)

lemma payLoop_rows_eq (bp : Nat) :
    ∀ (ps : List Payment) (rows : List PayRowR) (qs : List Payment),
      payLoop bp ps = .ok (rows, qs) →
      rows.map PayRowR.percentage = qs.map Payment.percentage ∧
      rows.map PayRowR.amount = qs.map Payment.amount := by
  intro ps
  induction ps with
  | nil =>
    intro rows qs h
    rw [payLoop_nil] at h
    injection h with h
    obtain ⟨hr, hq⟩ := (Prod.mk.injEq _ _ _ _).mp h
    subst hr
    subst hq
    exact ⟨rfl, rfl⟩
  | cons p ps ih =>
    intro rows qs h
    rw [payLoop_cons] at h
    cases hd : derivePay bp p with
    | error e => rw [hd] at h; exact Except.noConfusion h
    | ok p' =>
      rw [hd] at h
      cases hl : payLoop bp ps with
      | error e => rw [hl] at h; exact Except.noConfusion h
      | ok pr =>
        obtain ⟨rows', qs'⟩ := pr
        rw [hl] at h
        injection h with h
        obtain ⟨hr, hq⟩ := (Prod.mk.injEq _ _ _ _).mp h
        subst hr
        subst hq
        obtain ⟨ih1, ih2⟩ := ih rows' qs' hl
        exact ⟨by simp [payRow, ih1], by simp [payRow, ih2]⟩

lemma payLoop_zero_error :
    ∀ (ps : List Payment), (∃ p ∈ ps, p.percentage = 0 ∧ p.amount ≠ 0) →
      payLoop 0 ps = .error "division by zero" := by
  intro ps
  induction ps with
  | nil => rintro ⟨p, hp, _⟩; exact absurd hp (List.not_mem_nil p)
  | cons p ps ih =>
    rintro ⟨q, hq, hq0, hqa⟩
    rw [payLoop_cons]
    rcases List.mem_cons.mp hq with rfl | hmem
    · have hd : derivePay 0 q = .error "division by zero" := by
        unfold derivePay
        rw [if_pos ⟨hq0, hqa⟩, if_pos rfl]
      rw [hd]
    · cases hd : derivePay 0 p with
      | error e =>
        rw [(derivePay_error_inv 0 p e hd).1]
      | ok p' =>
        rw [ih ⟨q, hmem, hq0, hqa⟩]

end InvoiceGen

namespace InvoiceGen

/-- C1: with a non-zero base price the payment-schedule loop succeeds on
each entry in list order and rewrites it exactly as specified: a zero
percentage with non-zero amount becomes `round(amount / basePrice * 100)`,
a zero amount with non-zero percentage becomes
`round(percentage / 100 * basePrice)` (both with the same rounding
function `pyRound`), and an entry with both fields zero or both non-zero
is unchanged; with basePrice 1000, amount 300 derives percentage 30 and
percentage 25 derives amount 250. -/
theorem payment_derivation_formula :
    (∀ (bp : Nat) (ps : List Payment) (rows : List PayRowR) (qs : List Payment),
      bp ≠ 0 → payLoop bp ps = .ok (rows, qs) →
      List.Forall₂ (fun p q =>
        (p.percentage = 0 ∧ p.amount ≠ 0 →
          q = { p with percentage := (pyRound ((p.amount : ℚ) / (bp : ℚ) * 100)).toNat }) ∧
        (p.amount = 0 ∧ p.percentage ≠ 0 →
          q = { p with amount := (pyRound ((p.percentage : ℚ) / 100 * (bp : ℚ))).toNat }) ∧
        ((p.percentage = 0 ↔ p.amount = 0) → q = p)) ps qs) ∧
    derivePay 1000 ⟨"", "", 0, 300, ""⟩ = .ok ⟨"", "", 30, 300, ""⟩ ∧
    derivePay 1000 ⟨"", "", 25, 0, ""⟩ = .ok ⟨"", "", 25, 250, ""⟩ := by
  refine ⟨fun bp ps rows qs hbp h => ?_, ?_, ?_⟩
  · exact List.Forall₂.imp (fun p q hpq => derivePay_clauses bp hbp p q hpq)
      (payLoop_ok_forall₂ bp ps rows qs h)
  · simp [derivePay]
    norm_num [pyRound]
    rfl
  · simp [derivePay]
    norm_num [pyRound]
    rfl

/-- C1 witness: the loop applied to one already-resolved entry with base
price 1000. -/
theorem payment_derivation_formula_witness :
    List.Forall₂ (fun (p q : Payment) =>
      (p.percentage = 0 ∧ p.amount ≠ 0 →
        q = { p with percentage := (pyRound ((p.amount : ℚ) / (1000 : Nat) * 100)).toNat }) ∧
      (p.amount = 0 ∧ p.percentage ≠ 0 →
        q = { p with amount := (pyRound ((p.percentage : ℚ) / 100 * (1000 : Nat))).toNat }) ∧
      ((p.percentage = 0 ↔ p.amount = 0) → q = p))
      [⟨"down payment", "", 50, 500, "d"⟩] [⟨"down payment", "", 50, 500, "d"⟩] :=
  payment_derivation_formula.1 1000
    [⟨"down payment", "", 50, 500, "d"⟩]
    [⟨"down payment", "", 50, 500⟩]
    [⟨"down payment", "", 50, 500, "d"⟩]
    (by decide) rfl

/-- C7: derivation is the identity on a resolved entry (both fields
non-zero), for any base price, so applying it a second time changes
nothing. -/
theorem derivation_idempotent (bp : Nat) (p : Payment)
    (h1 : p.percentage ≠ 0) (h2 : p.amount ≠ 0) :
    derivePay bp p = .ok p ∧
    (derivePay bp p).bind (derivePay bp) = derivePay bp p := by
  have hres := derivePay_resolved bp p h1 h2
  refine ⟨hres, ?_⟩
  rw [hres]
  exact hres

/-- C7 witness at a concrete resolved entry. -/
theorem derivation_idempotent_witness :
    derivePay 777 ⟨"closing payment", "02-02-2025", 25, 300, "rest"⟩
        = .ok ⟨"closing payment", "02-02-2025", 25, 300, "rest"⟩ ∧
    (derivePay 777 ⟨"closing payment", "02-02-2025", 25, 300, "rest"⟩).bind (derivePay 777)
        = derivePay 777 ⟨"closing payment", "02-02-2025", 25, 300, "rest"⟩ :=
  derivation_idempotent 777 ⟨"closing payment", "02-02-2025", 25, 300, "rest"⟩
    (by decide) (by decide)

lemma validation_errors_nil_iff (ps : List Payment) (s : Nat) :
    validation_errors ps s = [] ↔
      ((total_percent ps = 100 ∨ total_amount ps = s) ∧
        ∀ p ∈ ps, p.percentage ≠ 0 ∨ p.amount ≠ 0) := by
  unfold validation_errors
  simp only [List.append_eq_nil]
  constructor
  · rintro ⟨h1, h2⟩
    constructor
    · by_contra hc
      rw [if_pos hc] at h1
      exact List.noConfusion h1
    · intro p hp
      by_contra hc
      push_neg at hc
      have hany : ps.any (fun p => p.percentage == 0 && p.amount == 0) = true :=
        List.any_eq_true.mpr ⟨p, hp, by simp [hc.1, hc.2]⟩
      rw [if_pos hany] at h2
      exact List.noConfusion h2
  · rintro ⟨h1, h2⟩
    refine ⟨?_, ?_⟩
    · rw [if_neg (not_not_intro h1)]
    · rw [if_neg ?_]
      intro hany
      obtain ⟨p, hp, hb⟩ := List.any_eq_true.mp hany
      simp only [Bool.and_eq_true, beq_iff_eq] at hb
      rcases h2 p hp with h | h
      · exact h hb.1
      · exact h hb.2

/-- C2: a click on Generate Invoice attempts generation exactly when the
two validation checks pass (percentages sum to 100 or amounts sum to the
total price, and every entry has a non-zero field); the example with
percentages summing to 90 and amounts not matching the total price is
rejected without generating. -/
theorem validation_gate :
    (∀ (ctx : Ctx) (d : InvoiceData),
      (∃ out, generateClick ctx d = .attempted out) ↔
        ((total_percent d.payments = 100 ∨ total_amount d.payments = sum_price d.items) ∧
          ∀ p ∈ d.payments, p.percentage ≠ 0 ∨ p.amount ≠ 0)) ∧
    generateClick ⟨true, true⟩ exData90
      = .rejected ["Either sum of payment percentages must be 100%, or sum of payment amounts must equal total price (1,000 €)."] := by
  constructor
  · intro ctx d
    constructor
    · rintro ⟨out, hout⟩
      unfold generateClick at hout
      by_cases he : validation_errors d.payments (sum_price d.items) = []
      · exact (validation_errors_nil_iff d.payments (sum_price d.items)).mp he
      · rw [if_neg he] at hout
        exact ClickResult.noConfusion hout
    · intro hcond
      refine ⟨create_invoice_pdf ctx d, ?_⟩
      unfold generateClick
      rw [if_pos ((validation_errors_nil_iff d.payments (sum_price d.items)).mpr hcond)]
  · decide

/-- C2 witness: a valid example is attempted. -/
theorem validation_gate_witness :
    ∃ out, generateClick ⟨true, true⟩ exData = .attempted out :=
  (validation_gate.1 ⟨true, true⟩ exData).mpr ⟨Or.inr (by decide), by decide⟩

end InvoiceGen

namespace InvoiceGen

/-- C8: the payment-schedule loop writes the derived values back into the
entries: the rendered table rows carry exactly the percentages and amounts
of the written-back entries, derivation changes no field other than
percentage and amount, and the terms section of the composed document is
rendered from the written-back entries. -/
theorem derivation_writeback_frame (ctx : Ctx) (d : InvoiceData)
    (rows : List PayRowR) (qs : List Payment)
    (h : payLoop (sum_price d.items) d.payments = .ok (rows, qs)) :
    rows.map PayRowR.percentage = qs.map Payment.percentage ∧
    rows.map PayRowR.amount = qs.map Payment.amount ∧
    List.Forall₂ (fun p q => q.name = p.name ∧ q.date = p.date ∧ q.description = p.description)
      d.payments qs ∧
    (ctx.fontOk = true →
      ∃ doc, (create_invoice_pdf ctx d).doc = some doc ∧
        List.Sublist ((termsLines 0 qs).map Elem.text) doc) := by
  obtain ⟨hper, hamt⟩ := payLoop_rows_eq (sum_price d.items) d.payments rows qs h
  refine ⟨hper, hamt, ?_, ?_⟩
  · exact List.Forall₂.imp (fun p q hpq => derivePay_frame _ p q hpq)
      (payLoop_ok_forall₂ _ d.payments rows qs h)
  · intro hfont
    have hdoc : (create_invoice_pdf ctx d).doc
        = some ((if ctx.logoExists then [Elem.image LOGO_PATH] else [])
            ++ (bodyStrs d rows qs).map Elem.text) := by
      simp [create_invoice_pdf, hfont, h]
    refine ⟨_, hdoc, ?_⟩
    apply List.IsInfix.sublist
    refine ⟨(if ctx.logoExists then [Elem.image LOGO_PATH] else [])
        ++ (headerElems d ++ itemsTable d.items d.vat
            ++ ["PAYMENT", "DATE", "PERCENTAGE", "AMOUNT"]
            ++ (rows.map renderPayRow).flatten ++ bankDetails
            ++ ["Terms & Conditions"]).map Elem.text,
      (standard_terms ++ ["THANK YOU FOR CHOOSING ASHI STUDIO", "WWW.ASHISTUDIO.COM"]).map Elem.text,
      ?_⟩
    simp [bodyStrs, List.map_append, List.append_assoc]

/-- C8 witness: the composed document for the example invoice contains the
terms lines built from the written-back entries. -/
theorem derivation_writeback_frame_witness :
    ∃ doc, (create_invoice_pdf ⟨true, true⟩ exData).doc = some doc ∧
      List.Sublist
        ((termsLines 0 [⟨"full payment", "01-01-2025", 100, 3000, ""⟩]).map Elem.text) doc :=
  (derivation_writeback_frame ⟨true, true⟩ exData
    [⟨"full payment", "01-01-2025", 100, 3000⟩]
    [⟨"full payment", "01-01-2025", 100, 3000, ""⟩] rfl).2.2.2 rfl

/-- C9: a font failure makes generation return no document and surface an
error; any exception inside composition does the same; a missing logo only
emits a warning, and generation still returns a non-empty document that
contains no image element. -/
theorem asset_error_handling (ctx : Ctx) (d : InvoiceData) :
    (ctx.fontOk = false →
      (create_invoice_pdf ctx d).doc = none ∧ (create_invoice_pdf ctx d).errors ≠ []) ∧
    (∀ e, ctx.fontOk = true →
      payLoop (sum_price d.items) d.payments = .error e →
      (create_invoice_pdf ctx d).doc = none ∧ (create_invoice_pdf ctx d).errors ≠ []) ∧
    (∀ rows qs, ctx.fontOk = true → ctx.logoExists = false →
      payLoop (sum_price d.items) d.payments = .ok (rows, qs) →
      ("Logo file not found: " ++ LOGO_PATH) ∈ (create_invoice_pdf ctx d).warnings ∧
      ∃ doc, (create_invoice_pdf ctx d).doc = some doc ∧ doc ≠ [] ∧
        ∀ path, Elem.image path ∉ doc) := by
  refine ⟨fun hfont => ?_, fun e hfont herr => ?_, fun rows qs hfont hlogo h => ?_⟩
  · constructor <;> simp [create_invoice_pdf, hfont]
  · constructor <;> simp [create_invoice_pdf, hfont, herr]
  · refine ⟨?_, (bodyStrs d rows qs).map Elem.text, ?_, ?_, ?_⟩
    · simp [create_invoice_pdf, hfont, hlogo, h]
    · simp [create_invoice_pdf, hfont, hlogo, h]
    · simp [bodyStrs, headerElems]
    · intro path hmem
      obtain ⟨s, _, habs⟩ := List.mem_map.mp hmem
      exact Elem.noConfusion habs

/-- C9 witness: font failure aborts; missing logo warns and still yields a
non-empty, image-free document. -/
theorem asset_error_handling_witness :
    ((create_invoice_pdf ⟨true, false⟩ exData).doc = none ∧
      (create_invoice_pdf ⟨true, false⟩ exData).errors ≠ []) ∧
    (("Logo file not found: " ++ LOGO_PATH) ∈ (create_invoice_pdf ⟨false, true⟩ exData).warnings ∧
      ∃ doc, (create_invoice_pdf ⟨false, true⟩ exData).doc = some doc ∧ doc ≠ [] ∧
        ∀ path, Elem.image path ∉ doc) :=
  ⟨(asset_error_handling ⟨true, false⟩ exData).1 rfl,
   (asset_error_handling ⟨false, true⟩ exData).2.2
     [⟨"full payment", "01-01-2025", 100, 3000⟩]
     [⟨"full payment", "01-01-2025", 100, 3000, ""⟩] rfl rfl rfl⟩

/-- C10: when the item prices sum to zero and some payment has zero
percentage and non-zero amount, the derivation raises a division-by-zero
error, the composer's handler catches it, and the generation call returns
no document with the corresponding diagnostic. -/
theorem zero_base_division_aborts (ctx : Ctx) (d : InvoiceData) (p : Payment)
    (hfont : ctx.fontOk = true) (hsum : sum_price d.items = 0)
    (hmem : p ∈ d.payments) (hperc : p.percentage = 0) (hamt : p.amount ≠ 0) :
    (create_invoice_pdf ctx d).doc = none ∧
    (create_invoice_pdf ctx d).errors = ["Failed to generate PDF: " ++ "division by zero"] := by
  have herr : payLoop (sum_price d.items) d.payments = .error "division by zero" := by
    rw [hsum]
    exact payLoop_zero_error d.payments ⟨p, hmem, hperc, hamt⟩
  constructor <;> simp [create_invoice_pdf, hfont, herr]

/-- C10 witness at a concrete invoice with total price 0. -/
theorem zero_base_division_aborts_witness :
    (create_invoice_pdf ⟨true, true⟩ exDataZero).doc = none ∧
    (create_invoice_pdf ⟨true, true⟩ exDataZero).errors
      = ["Failed to generate PDF: " ++ "division by zero"] :=
  zero_base_division_aborts ⟨true, true⟩ exDataZero ⟨"down payment", "", 0, 300, ""⟩
    rfl rfl (by decide) rfl (by decide)

end InvoiceGen
